import Mathlib

/-!
Verification of the Solana sniping bot pipeline (pool monitor, filter stage,
safety checker, execution engine, portfolio sink).

Shallow embedding conventions:
* JavaScript numbers are modelled as rationals (`ℚ`); integer timestamps as `ℤ`.
* A possibly-absent object field is an `Option`; the JavaScript falsiness test
  `!x` on a numeric field is `truthyNum` below (absent, `null` and `0` are falsy).
* `await`ed network calls are modelled by an environment record `Env` whose
  fields return `Except String α`: `Except.error` models a thrown transport
  error, the `ok`/`status` fields of a response model the HTTP status check.
* File and notification side effects are made explicit in a `BotState` record
  threaded through the execution engine.
* Human-readable reason strings are kept where a claim depends on them; numeric
  interpolation done with `toFixed` in the source is elided from the remaining
  diagnostic strings.
-/

namespace Snipey

/-! ### Configuration constants (sniper source, lines 19-48) -/

def MIN_LIQUIDITY : ℚ := 3000
def MIN_MARKET_CAP : ℚ := 30000
def MAX_MARKET_CAP : ℚ := 10000000
def MAX_TOKEN_AGE_MINUTES : ℚ := 60
def MIN_VOLUME_24H : ℚ := 5000
def SNIPE_AMOUNT_USDT : ℚ := 1
def MAX_SLIPPAGE_BPS : ℕ := 500
def DRY_RUN : Bool := false

def EXCLUDED_TOKENS : List String :=
  [ "So11111111111111111111111111111111111111112"
  , "EPjFWdd5AufqSSqeM2qN1xzybapC8G4wEGGkZwyTDt1v"
  , "Es9vMFrzaCERmJfrF4H2FYD4KCoNkY11McCe8BenwNYB"
  , "mSoLzYCxHdYgdzU16g5QSh3i5K3z3KZK7ytfqcJm7So"
  , "J1toso1uCk3RLmjorhTtrVwY9HJ7X8V9yYac6Y7kGCPn"
  , "jupSoLaHXQiZZTSfEWMTRRgpnyFm8f6sZdosWBjx93v" ]

def suspiciousNames : List String :=
  ["test", "scam", "rug", "fake", "honeypot", "shit", "moon", "safe"]

/-! ### Token objects (Birdeye token entries / enhanced real-time candidates) -/

structure Token where
  address : String
  symbol : Option String
  name : Option String
  price : Option ℚ
  mc : Option ℚ
  liquidity : Option ℚ
  v24hUSD : Option ℚ
  v24hChangePercent : Option ℚ
  lastTradeUnixTime : ℚ
  volume24h : Option ℚ
  poolId : Option String
  baseMint : Option String
  quoteMint : Option String
  signature : Option String
  detectionMethod : Option String
deriving DecidableEq

/-- JavaScript truthiness of a numeric field: absent (`undefined`/`null`) and
`0` are falsy, every other number is truthy. -/
def truthyNum : Option ℚ → Bool
  | none => false
  | some x => decide (x ≠ 0)

/-- Whether the character list `p` is an initial segment of `l`. -/
def startsWithList : List Char → List Char → Bool
  | [], _ => true
  | _ :: _, [] => false
  | p :: ps, c :: cs => p == c && startsWithList ps cs

def containsSubList (l p : List Char) : Bool :=
  startsWithList p l ||
    match l with
    | [] => false
    | _ :: cs => containsSubList cs p

/-- JavaScript `String.prototype.includes`: substring containment. -/
def strIncludes (s pat : String) : Bool :=
  containsSubList s.toList pat.toList

/-- JavaScript `String.prototype.toLowerCase` (ASCII range, which covers the
fixed suspicious-substring list). -/
def jsToLower (s : String) : String :=
  String.mk (s.toList.map Char.toLower)

/-! ### Filter Stage: `passesSnipeFilters` (sniper source, lines 85-141).
Each early `return false` guard of the source is a named condition. -/

def filterExcluded (t : Token) : Bool :=
  EXCLUDED_TOKENS.contains t.address

def filterLowLiquidity (t : Token) : Bool :=
  !truthyNum t.liquidity || decide (t.liquidity.getD 0 < MIN_LIQUIDITY)

def filterMarketCapBand (t : Token) : Bool :=
  !truthyNum t.mc || decide (t.mc.getD 0 < MIN_MARKET_CAP)
    || decide (t.mc.getD 0 > MAX_MARKET_CAP)

def filterPriceBand (t : Token) : Bool :=
  !truthyNum t.price || decide (t.price.getD 0 < 1 / 1000000)
    || decide (t.price.getD 0 > 1000)

def filterStale (nowMs : ℚ) (t : Token) : Bool :=
  decide (t.lastTradeUnixTime * 1000 < nowMs - MAX_TOKEN_AGE_MINUTES * 60 * 1000)

def filterLowVolume (t : Token) : Bool :=
  !truthyNum t.v24hUSD || decide (t.v24hUSD.getD 0 < MIN_VOLUME_24H)

def filterLowVolumeToMc (t : Token) : Bool :=
  decide (t.v24hUSD.getD 0 / t.mc.getD 0 < 5 / 100)

def filterVolatile (t : Token) : Bool :=
  truthyNum t.v24hChangePercent && decide (|t.v24hChangePercent.getD 0| > 1000)

def filterSuspiciousName (t : Token) : Bool :=
  suspiciousNames.any fun s =>
    strIncludes (jsToLower (t.name.getD "")) s
      || strIncludes (jsToLower (t.symbol.getD "")) s

def passesSnipeFilters (nowMs : ℚ) (t : Token) : Bool :=
  if filterExcluded t then false
  else if filterLowLiquidity t then false
  else if filterMarketCapBand t then false
  else if filterPriceBand t then false
  else if filterStale nowMs t then false
  else if filterLowVolume t then false
  else if filterLowVolumeToMc t then false
  else if filterVolatile t then false
  else if filterSuspiciousName t then false
  else true

/-! ### Filter Stage lemmas -/

theorem if_false_chain (b rest : Bool) :
    (if b = true then false else rest) = true ↔ b = false ∧ rest = true := by
  cases b <;> simp

theorem passesSnipeFilters_true_iff (nowMs : ℚ) (t : Token) :
    passesSnipeFilters nowMs t = true ↔
      filterExcluded t = false ∧ filterLowLiquidity t = false ∧
      filterMarketCapBand t = false ∧ filterPriceBand t = false ∧
      filterStale nowMs t = false ∧ filterLowVolume t = false ∧
      filterLowVolumeToMc t = false ∧ filterVolatile t = false ∧
      filterSuspiciousName t = false := by
  unfold passesSnipeFilters
  simp only [if_false_chain, and_true]

/-- C1: every threshold of the Filter Stage is independently necessary: a token
whose liquidity is absent or below `MIN_LIQUIDITY` is rejected regardless of the
other fields, and symmetrically for the exclusion list, the market-cap band, the
price band, the trade-age ceiling, the 24h-volume floor, the volume-to-market-cap
ratio floor, the 24h price-change ceiling, and suspicious name/symbol substrings. -/
theorem C1_each_filter_threshold_rejects (nowMs : ℚ) (t : Token) :
    ((t.liquidity = none ∨ ∃ x, t.liquidity = some x ∧ x < MIN_LIQUIDITY) →
        passesSnipeFilters nowMs t = false) ∧
    (t.address ∈ EXCLUDED_TOKENS → passesSnipeFilters nowMs t = false) ∧
    ((∃ x, t.mc = some x ∧ (x < MIN_MARKET_CAP ∨ x > MAX_MARKET_CAP)) →
        passesSnipeFilters nowMs t = false) ∧
    ((∃ x, t.price = some x ∧ (x < 1 / 1000000 ∨ x > 1000)) →
        passesSnipeFilters nowMs t = false) ∧
    (t.lastTradeUnixTime * 1000 < nowMs - MAX_TOKEN_AGE_MINUTES * 60 * 1000 →
        passesSnipeFilters nowMs t = false) ∧
    ((∃ x, t.v24hUSD = some x ∧ x < MIN_VOLUME_24H) →
        passesSnipeFilters nowMs t = false) ∧
    ((∃ v m, t.v24hUSD = some v ∧ t.mc = some m ∧ v / m < 5 / 100) →
        passesSnipeFilters nowMs t = false) ∧
    ((∃ c, t.v24hChangePercent = some c ∧ |c| > 1000) →
        passesSnipeFilters nowMs t = false) ∧
    ((∃ s, s ∈ suspiciousNames ∧
        (strIncludes (jsToLower (t.name.getD "")) s = true ∨
         strIncludes (jsToLower (t.symbol.getD "")) s = true)) →
        passesSnipeFilters nowMs t = false) := by
  have reject : ∀ h : Prop, ∀ guard : Bool,
      (passesSnipeFilters nowMs t = true → guard = false) →
      (h → guard = true) → h → passesSnipeFilters nowMs t = false := by
    intro h guard hextract himp hh
    cases hp : passesSnipeFilters nowMs t with
    | false => rfl
    | true => exact absurd (himp hh) (by simp [hextract hp])
  refine ⟨?_, ?_, ?_, ?_, ?_, ?_, ?_, ?_, ?_⟩
  · refine reject _ (filterLowLiquidity t)
      (fun hp => ((passesSnipeFilters_true_iff nowMs t).1 hp).2.1) ?_
    rintro (hnone | ⟨x, hx, hlt⟩)
    · simp [filterLowLiquidity, truthyNum, hnone]
    · simp [filterLowLiquidity, hx, hlt]
  · refine reject _ (filterExcluded t)
      (fun hp => ((passesSnipeFilters_true_iff nowMs t).1 hp).1) ?_
    intro hmem
    simpa [filterExcluded] using hmem
  · refine reject _ (filterMarketCapBand t)
      (fun hp => ((passesSnipeFilters_true_iff nowMs t).1 hp).2.2.1) ?_
    rintro ⟨x, hx, hlt | hgt⟩
    · simp [filterMarketCapBand, hx, hlt]
    · simp [filterMarketCapBand, hx, hgt]
  · refine reject _ (filterPriceBand t)
      (fun hp => ((passesSnipeFilters_true_iff nowMs t).1 hp).2.2.2.1) ?_
    rintro ⟨x, hx, hlt | hgt⟩
    · rw [one_div] at hlt
      simp [filterPriceBand, hx, hlt]
    · simp [filterPriceBand, hx, hgt]
  · refine reject _ (filterStale nowMs t)
      (fun hp => ((passesSnipeFilters_true_iff nowMs t).1 hp).2.2.2.2.1) ?_
    intro hlt
    simpa [filterStale] using hlt
  · refine reject _ (filterLowVolume t)
      (fun hp => ((passesSnipeFilters_true_iff nowMs t).1 hp).2.2.2.2.2.1) ?_
    rintro ⟨x, hx, hlt⟩
    simp [filterLowVolume, hx, hlt]
  · refine reject _ (filterLowVolumeToMc t)
      (fun hp => ((passesSnipeFilters_true_iff nowMs t).1 hp).2.2.2.2.2.2.1) ?_
    rintro ⟨v, m, hv, hm, hlt⟩
    simp [filterLowVolumeToMc, hv, hm, hlt]
  · refine reject _ (filterVolatile t)
      (fun hp => ((passesSnipeFilters_true_iff nowMs t).1 hp).2.2.2.2.2.2.2.1) ?_
    rintro ⟨c, hc, habs⟩
    have hne : c ≠ 0 := by
      intro h0
      rw [h0] at habs
      norm_num at habs
    simp [filterVolatile, hc, truthyNum, hne, habs]
  · refine reject _ (filterSuspiciousName t)
      (fun hp => ((passesSnipeFilters_true_iff nowMs t).1 hp).2.2.2.2.2.2.2.2) ?_
    rintro ⟨s, hs, hin⟩
    refine List.any_eq_true.2 ⟨s, hs, ?_⟩
    rcases hin with h | h <;> simp [h]

/-- Token literal with every optional field absent, used to instantiate claims. -/
def blankToken (addr : String) : Token :=
  { address := addr, symbol := none, name := none, price := none, mc := none
  , liquidity := none, v24hUSD := none, v24hChangePercent := none
  , lastTradeUnixTime := 0, volume24h := none, poolId := none, baseMint := none
  , quoteMint := none, signature := none, detectionMethod := none }

/-- Token literal passing every filter at time 0, used to instantiate claims. -/
def healthyToken : Token :=
  { blankToken "TokenA" with
      symbol := some "TKA", name := some "Token A", price := some (1 / 100)
    , mc := some 50000, liquidity := some 5000, v24hUSD := some 10000
    , v24hChangePercent := some 10, lastTradeUnixTime := 0 }

theorem healthyToken_passes : passesSnipeFilters 0 healthyToken = true := by
  have h7 : filterLowVolumeToMc healthyToken = false := by
    simp only [filterLowVolumeToMc, healthyToken, blankToken, Option.getD_some,
      decide_eq_false_iff_not]
    norm_num
  have h5 : filterStale 0 healthyToken = false := by
    simp only [filterStale, healthyToken, blankToken, MAX_TOKEN_AGE_MINUTES,
      decide_eq_false_iff_not]
    norm_num
  have h1 : filterExcluded healthyToken = false := by decide
  have h2 : filterLowLiquidity healthyToken = false := by decide
  have h3 : filterMarketCapBand healthyToken = false := by decide
  have h4 : filterPriceBand healthyToken = false := by
    norm_num [filterPriceBand, healthyToken, blankToken, truthyNum]
  have h6 : filterLowVolume healthyToken = false := by decide
  have h8 : filterVolatile healthyToken = false := by decide
  have h9 : filterSuspiciousName healthyToken = false := by decide
  rw [passesSnipeFilters, h1, h2, h3, h4, h5, h6, h7, h8, h9]
  decide

theorem C1_each_filter_threshold_rejects_witness :
    passesSnipeFilters 0 healthyToken = true ∧
    passesSnipeFilters 0 { healthyToken with liquidity := some 100 } = false ∧
    passesSnipeFilters 0
      { healthyToken with
          address := "So11111111111111111111111111111111111111112" } = false ∧
    passesSnipeFilters 0 { healthyToken with mc := some 20000000 } = false ∧
    passesSnipeFilters 0 { healthyToken with price := some 2000 } = false ∧
    passesSnipeFilters 3600001000 healthyToken = false ∧
    passesSnipeFilters 0 { healthyToken with v24hUSD := some 100 } = false ∧
    passesSnipeFilters 0 { healthyToken with v24hUSD := some 2000 } = false ∧
    passesSnipeFilters 0
      { healthyToken with v24hChangePercent := some 2000 } = false ∧
    passesSnipeFilters 0 { healthyToken with name := some "SafeMoon" } = false := by
  refine ⟨healthyToken_passes, ?_, ?_, ?_, ?_, ?_, ?_, ?_, ?_, ?_⟩
  · exact (C1_each_filter_threshold_rejects 0 _).1
      (Or.inr ⟨100, rfl, by norm_num [MIN_LIQUIDITY]⟩)
  · exact (C1_each_filter_threshold_rejects 0 _).2.1 (by decide)
  · exact (C1_each_filter_threshold_rejects 0 _).2.2.1
      ⟨20000000, rfl, Or.inr (by norm_num [MAX_MARKET_CAP])⟩
  · exact (C1_each_filter_threshold_rejects 0 _).2.2.2.1
      ⟨2000, rfl, Or.inr (by norm_num)⟩
  · exact (C1_each_filter_threshold_rejects 3600001000 _).2.2.2.2.1
      (by norm_num [healthyToken, blankToken, MAX_TOKEN_AGE_MINUTES])
  · exact (C1_each_filter_threshold_rejects 0 _).2.2.2.2.2.1
      ⟨100, rfl, by norm_num [MIN_VOLUME_24H]⟩
  · exact (C1_each_filter_threshold_rejects 0 _).2.2.2.2.2.2.1
      ⟨2000, 50000, rfl, rfl, by norm_num⟩
  · exact (C1_each_filter_threshold_rejects 0 _).2.2.2.2.2.2.2.1
      ⟨2000, rfl, by norm_num⟩
  · exact (C1_each_filter_threshold_rejects 0 _).2.2.2.2.2.2.2.2
      ⟨"safe", by decide, Or.inl (by decide)⟩

/-! ### Environment: the external world consulted by the safety checker and
the execution engine.  `Except.error` models a thrown transport error. -/

/-- The `data.parsed.info` payload of `getParsedAccountInfo` on a mint. -/
structure MintInfo where
  mintAuthority : Option String
  freezeAuthority : Option String
  supply : ℚ
  decimals : ℤ
deriving DecidableEq

/-- Shape of a `getParsedAccountInfo` response: `noValue` models a `null`
`accountInfo.value`, `unparsable` a value without `data.parsed.info`. -/
inductive AccountResp where
  | noValue
  | unparsable
  | parsed (info : MintInfo)
deriving DecidableEq

/-- JSON body of a Jupiter quote response.  `outAmount` is `none` when the
field is absent or the string literal is falsy. -/
structure QuoteJson where
  outAmount : Option ℚ
  priceImpactPct : Option ℚ
  slippageBps : Option ℚ
deriving DecidableEq

/-- An HTTP response from the Jupiter quote API: `ok`/`status` mirror the
fetch response object, `body` its parsed JSON. -/
structure JupResp where
  ok : Bool
  status : ℕ
  body : QuoteJson
deriving DecidableEq

/-- An HTTP response from the Jupiter swap-build API. -/
structure BuildResp where
  ok : Bool
  status : ℕ
  swapTransaction : String
deriving DecidableEq

/-- Outcome of signing, submitting and confirming the swap transaction
(deserialization, signing and confirmation are collapsed into the result the
external libraries report back). -/
inductive ExecOutcome where
  | failure (error : String)
  | success (signature : String)
deriving DecidableEq

/-- A parsed transaction as returned by `getParsedTransaction` (`none` models
a `null` transaction); only the account-key list is consumed. -/
structure ParsedTx where
  accountKeys : List String
deriving DecidableEq

/-- Raydium liquidity-state fields decoded by `LIQUIDITY_STATE_LAYOUT_V4`. -/
structure PoolStateV4 where
  baseMint : String
  quoteMint : String
  poolOpenTime : ℤ
deriving DecidableEq

/-- External collaborators of the bot process. -/
structure Env where
  nowMs : ℤ
  nowIso : String
  accountInfo : String → Except String AccountResp
  honeypotBuy : String → Except String JupResp
  honeypotSell : String → ℚ → Except String JupResp
  snipeQuote : String → ℤ → Except String JupResp
  swapBuild : QuoteJson → Except String BuildResp
  swapExec : ExecOutcome
  usdtAccounts : Except String (List ℚ)
  parsedTx : String → Except String (Option ParsedTx)
  decodeLiquidityState : List ℕ → Except String PoolStateV4

/-! ### Safety Checker (sniper source, lines 147-432) -/

/-- Pass/fail of one safety check together with its human-readable reason
(the `reason` of a failure, or the diagnostic detail of a pass). -/
structure CheckResult where
  passed : Bool
  reason : String
deriving DecidableEq

/-- `checkMintAuthority` (sniper source, lines 200-226). -/
def checkMintAuthority (env : Env) (tokenMint : String) : CheckResult :=
  match env.accountInfo tokenMint with
  | .error msg => ⟨false, "Error: " ++ msg⟩
  | .ok .noValue => ⟨false, "Token account not found"⟩
  | .ok .unparsable => ⟨false, "Could not parse token data"⟩
  | .ok (.parsed info) =>
    match info.mintAuthority with
    | none => ⟨true, "null (renounced)"⟩
    | some authority => ⟨false, "Mint authority not renounced: " ++ authority⟩

/-- `checkFreezeAuthority` (sniper source, lines 228-254). -/
def checkFreezeAuthority (env : Env) (tokenMint : String) : CheckResult :=
  match env.accountInfo tokenMint with
  | .error msg => ⟨false, "Error: " ++ msg⟩
  | .ok .noValue => ⟨false, "Token account not found"⟩
  | .ok .unparsable => ⟨false, "Could not parse token data"⟩
  | .ok (.parsed info) =>
    match info.freezeAuthority with
    | none => ⟨true, "null (renounced)"⟩
    | some authority => ⟨false, "Freeze authority not renounced: " ++ authority⟩

/-- `checkTokenSupply` (sniper source, lines 256-297). -/
def checkTokenSupply (env : Env) (tokenMint : String) : CheckResult :=
  match env.accountInfo tokenMint with
  | .error msg => ⟨false, "Error: " ++ msg⟩
  | .ok .noValue => ⟨false, "Token account not found"⟩
  | .ok .unparsable => ⟨false, "Could not parse token data"⟩
  | .ok (.parsed info) =>
    let uiSupply := info.supply / (10 : ℚ) ^ info.decimals
    if uiSupply < 1000000 then ⟨false, "Supply too low"⟩
    else if uiSupply > 1000000000000 then ⟨false, "Supply too high"⟩
    else if ¬(info.decimals = 6 ∨ info.decimals = 8 ∨ info.decimals = 9) then
      ⟨false, "Non-standard decimals"⟩
    else ⟨true, "supply ok"⟩

/-- `checkHoneypot` (sniper source, lines 299-410): a simulated 1-USDT buy
followed by a sell of the bought amount. -/
def checkHoneypot (env : Env) (tokenMint : String) : CheckResult :=
  match env.honeypotBuy tokenMint with
  | .error msg => ⟨false, "Honeypot check error: " ++ msg⟩
  | .ok buyResp =>
    if !buyResp.ok then
      ⟨false, "Buy quote failed: " ++ toString buyResp.status
        ++ " - Token may not be tradeable"⟩
    else
      match buyResp.body.outAmount with
      | none => ⟨false, "Buy quote returned 0 tokens - likely honeypot"⟩
      | some buyOut =>
        if buyOut = 0 then ⟨false, "Buy quote returned 0 tokens - likely honeypot"⟩
        else
          match env.honeypotSell tokenMint buyOut with
          | .error msg => ⟨false, "Honeypot check error: " ++ msg⟩
          | .ok sellResp =>
            if !sellResp.ok then
              ⟨false, "Sell quote failed: " ++ toString sellResp.status
                ++ " - Classic honeypot (can buy but can\x27t sell)"⟩
            else
              match sellResp.body.outAmount with
              | none => ⟨false, "Sell quote returned 0 USDT - honeypot confirmed"⟩
              | some sellOut =>
                if sellOut = 0 then
                  ⟨false, "Sell quote returned 0 USDT - honeypot confirmed"⟩
                else
                  let buyPrice := 1000000 / buyOut
                  let sellPrice := sellOut / buyOut
                  let priceImpact := (buyPrice - sellPrice) / buyPrice * 100
                  if priceImpact > 50 then ⟨false, "Excessive price impact"⟩
                  else
                    let sellAmount := sellOut / 1000000
                    let recoveryRate := sellAmount / 1 * 100
                    if recoveryRate < 50 then ⟨false, "Poor sell recovery"⟩
                    else
                      let buySlippage := buyResp.body.priceImpactPct.getD 0
                      let sellSlippage := sellResp.body.priceImpactPct.getD 0
                      if buySlippage > 20 ∨ sellSlippage > 20 then
                        ⟨false, "Excessive slippage"⟩
                      else ⟨true, "round trip ok"⟩

/-- `checkHolderDistribution` (sniper source, lines 412-432): a placeholder
that always passes. -/
def checkHolderDistribution (_tokenMint : String) : CheckResult :=
  ⟨true, "Basic check passed (advanced holder analysis not implemented)"⟩

/-- Names of the five safety checks, in source order. -/
inductive CheckName where
  | mintAuth
  | freezeAuth
  | supply
  | honeypot
  | holder
deriving DecidableEq

/-- `checkTokenSafety` (sniper source, lines 147-198), instrumented with the
list of checks actually evaluated (the source's sequence of awaited calls):
each check is consulted in the fixed order and the function returns at the
first failure. -/
def checkTokenSafetyTrace (env : Env) (token : Token) : Bool × List CheckName :=
  let r1 := checkMintAuthority env token.address
  if !r1.passed then (false, [.mintAuth])
  else
    let r2 := checkFreezeAuthority env token.address
    if !r2.passed then (false, [.mintAuth, .freezeAuth])
    else
      let r3 := checkTokenSupply env token.address
      if !r3.passed then (false, [.mintAuth, .freezeAuth, .supply])
      else
        let r4 := checkHoneypot env token.address
        if !r4.passed then (false, [.mintAuth, .freezeAuth, .supply, .honeypot])
        else
          let r5 := checkHolderDistribution token.address
          if !r5.passed then
            (false, [.mintAuth, .freezeAuth, .supply, .honeypot, .holder])
          else (true, [.mintAuth, .freezeAuth, .supply, .honeypot, .holder])

/-- Boolean result of `checkTokenSafety` as consumed by the callers. -/
def checkTokenSafety (env : Env) (token : Token) : Bool :=
  (checkTokenSafetyTrace env token).1

/-- C2: with a non-null mint authority the mint-authority check fails and the
safety checker evaluates no subsequent check; in general the five checks run
in the fixed order mint authority, freeze authority, supply, honeypot, holder,
stopping at the first failure, and the overall result is true exactly when all
five checks pass. -/
theorem C2_safety_short_circuit_order (env : Env) (t : Token) :
    (∀ info a, env.accountInfo t.address = Except.ok (AccountResp.parsed info) →
        info.mintAuthority = some a →
        (checkMintAuthority env t.address).passed = false ∧
        checkTokenSafetyTrace env t = (false, [CheckName.mintAuth])) ∧
    ((checkMintAuthority env t.address).passed = true →
        (checkFreezeAuthority env t.address).passed = false →
        checkTokenSafetyTrace env t =
          (false, [CheckName.mintAuth, CheckName.freezeAuth])) ∧
    ((checkMintAuthority env t.address).passed = true →
        (checkFreezeAuthority env t.address).passed = true →
        (checkTokenSupply env t.address).passed = false →
        checkTokenSafetyTrace env t =
          (false, [CheckName.mintAuth, CheckName.freezeAuth, CheckName.supply])) ∧
    ((checkMintAuthority env t.address).passed = true →
        (checkFreezeAuthority env t.address).passed = true →
        (checkTokenSupply env t.address).passed = true →
        (checkHoneypot env t.address).passed = false →
        checkTokenSafetyTrace env t =
          (false, [CheckName.mintAuth, CheckName.freezeAuth, CheckName.supply,
                   CheckName.honeypot])) ∧
    ((checkMintAuthority env t.address).passed = true →
        (checkFreezeAuthority env t.address).passed = true →
        (checkTokenSupply env t.address).passed = true →
        (checkHoneypot env t.address).passed = true →
        checkTokenSafetyTrace env t =
          (true, [CheckName.mintAuth, CheckName.freezeAuth, CheckName.supply,
                  CheckName.honeypot, CheckName.holder])) ∧
    (checkTokenSafety env t = true ↔
        (checkMintAuthority env t.address).passed = true ∧
        (checkFreezeAuthority env t.address).passed = true ∧
        (checkTokenSupply env t.address).passed = true ∧
        (checkHoneypot env t.address).passed = true ∧
        (checkHolderDistribution t.address).passed = true) := by
  refine ⟨?_, ?_, ?_, ?_, ?_, ?_⟩
  · intro info a hacc hma
    have hm : (checkMintAuthority env t.address).passed = false := by
      simp [checkMintAuthority, hacc, hma]
    exact ⟨hm, by simp [checkTokenSafetyTrace, hm]⟩
  · intro h1 h2
    simp [checkTokenSafetyTrace, h1, h2]
  · intro h1 h2 h3
    simp [checkTokenSafetyTrace, h1, h2, h3]
  · intro h1 h2 h3 h4
    simp [checkTokenSafetyTrace, h1, h2, h3, h4]
  · intro h1 h2 h3 h4
    simp [checkTokenSafetyTrace, h1, h2, h3, h4, checkHolderDistribution]
  · unfold checkTokenSafety checkTokenSafetyTrace
    cases h1 : (checkMintAuthority env t.address).passed <;>
    cases h2 : (checkFreezeAuthority env t.address).passed <;>
    cases h3 : (checkTokenSupply env t.address).passed <;>
    cases h4 : (checkHoneypot env t.address).passed <;>
      simp [checkHolderDistribution, h1, h2, h3, h4]

/-! ### Concrete environments used to instantiate the claims -/

/-- A Jupiter quote body for a clean 1:1 round trip. -/
def quoteClean : QuoteJson :=
  { outAmount := some 1000000, priceImpactPct := some 0, slippageBps := some 0 }

def jupOk (q : QuoteJson) : JupResp := { ok := true, status := 200, body := q }

/-- Mint info of a well-behaved token (authorities renounced, sane supply). -/
def mintInfoClean : MintInfo :=
  { mintAuthority := none, freezeAuthority := none
  , supply := 10000000000000, decimals := 6 }

/-- Environment in which every external call succeeds benignly. -/
def envBase : Env :=
  { nowMs := 0
  , nowIso := "2024-01-01T00:00:00Z"
  , accountInfo := fun _ => .ok (.parsed mintInfoClean)
  , honeypotBuy := fun _ => .ok (jupOk quoteClean)
  , honeypotSell := fun _ _ => .ok (jupOk quoteClean)
  , snipeQuote := fun _ _ => .ok (jupOk quoteClean)
  , swapBuild := fun _ => .ok { ok := true, status := 200, swapTransaction := "tx64" }
  , swapExec := .success "sig111"
  , usdtAccounts := .ok [100000000]
  , parsedTx := fun _ => .ok none
  , decodeLiquidityState := fun _ => .error "undecodable" }

/-- Environment whose mint still has a live mint authority. -/
def envMintAuthLive : Env :=
  { envBase with
      accountInfo := fun _ =>
        .ok (.parsed { mintInfoClean with mintAuthority := some "EvilOwner" }) }

theorem envBase_mint_passes :
    (checkMintAuthority envBase "M").passed = true := by
  simp [checkMintAuthority, envBase, mintInfoClean]

theorem envBase_freeze_passes :
    (checkFreezeAuthority envBase "M").passed = true := by
  simp [checkFreezeAuthority, envBase, mintInfoClean]

theorem envBase_supply_passes :
    (checkTokenSupply envBase "M").passed = true := by
  simp only [checkTokenSupply, envBase, mintInfoClean]
  norm_num

theorem envBase_honeypot_passes :
    (checkHoneypot envBase "M").passed = true := by
  simp only [checkHoneypot, envBase, jupOk, quoteClean]
  norm_num

theorem C2_safety_short_circuit_order_witness :
    (checkMintAuthority envMintAuthLive "M").passed = false ∧
    checkTokenSafetyTrace envMintAuthLive (blankToken "M") =
      (false, [CheckName.mintAuth]) ∧
    checkTokenSafetyTrace envBase (blankToken "M") =
      (true, [CheckName.mintAuth, CheckName.freezeAuth, CheckName.supply,
              CheckName.honeypot, CheckName.holder]) ∧
    checkTokenSafety envBase (blankToken "M") = true := by
  have h1 := (C2_safety_short_circuit_order envMintAuthLive (blankToken "M")).1
    { mintInfoClean with mintAuthority := some "EvilOwner" } "EvilOwner" rfl rfl
  have h5 := (C2_safety_short_circuit_order envBase (blankToken "M")).2.2.2.2.1
    envBase_mint_passes envBase_freeze_passes envBase_supply_passes
    envBase_honeypot_passes
  have h6 := (C2_safety_short_circuit_order envBase (blankToken "M")).2.2.2.2.2.2
  exact ⟨h1.1, h1.2, h5,
    h6 ⟨envBase_mint_passes, envBase_freeze_passes, envBase_supply_passes,
      envBase_honeypot_passes, rfl⟩⟩

/-! ### C3: characterisation of the honeypot check -/

/-- Spec-side notion of the buy quote being actually obtained and usable:
`some b` when the buy request succeeded with HTTP ok and a non-zero output
amount `b`; `none` when the buy quote is absent or zero. -/
def buyQuoteOut (env : Env) (mint : String) : Option ℚ :=
  match env.honeypotBuy mint with
  | .error _ => none
  | .ok r =>
    if r.ok then
      match r.body.outAmount with
      | some b => if b = 0 then none else some b
      | none => none
    else none

/-- Spec-side notion of the sell quote (requested with the buy output as its
amount) being obtained and usable. -/
def sellQuoteOut (env : Env) (mint : String) : Option ℚ :=
  match buyQuoteOut env mint with
  | none => none
  | some b =>
    match env.honeypotSell mint b with
    | .error _ => none
    | .ok r =>
      if r.ok then
        match r.body.outAmount with
        | some s => if s = 0 then none else some s
        | none => none
      else none

/-- The claimed failure condition of the honeypot check, written from the
spec: either quote absent/zero, round-trip price impact above 50%, recovered
value below 50% of the input, or either leg reporting slippage above 20%. -/
def honeypotFailCondition (env : Env) (mint : String) : Prop :=
  buyQuoteOut env mint = none ∨
  sellQuoteOut env mint = none ∨
  (∃ b s, buyQuoteOut env mint = some b ∧ sellQuoteOut env mint = some s ∧
    ((1000000 / b - s / b) / (1000000 / b) * 100 > 50 ∨
     s / 1000000 / 1 * 100 < 50 ∨
     (∃ rb, env.honeypotBuy mint = Except.ok rb ∧
        rb.body.priceImpactPct.getD 0 > 20) ∨
     (∃ rs, env.honeypotSell mint b = Except.ok rs ∧
        rs.body.priceImpactPct.getD 0 > 20)))

/-- C3: the honeypot check fails exactly under `honeypotFailCondition`; in
particular a buy quote with non-zero output followed by a sell quote with zero
output amount fails with the reason indicating inability to sell. -/
theorem C3_honeypot_fails_iff (env : Env) (mint : String) :
    ((checkHoneypot env mint).passed = false ↔ honeypotFailCondition env mint) ∧
    (∀ rb b rs, env.honeypotBuy mint = Except.ok rb → rb.ok = true →
      rb.body.outAmount = some b → b ≠ 0 →
      env.honeypotSell mint b = Except.ok rs → rs.ok = true →
      rs.body.outAmount = some 0 →
      checkHoneypot env mint =
        ⟨false, "Sell quote returned 0 USDT - honeypot confirmed"⟩) := by
  constructor
  · rcases hb : env.honeypotBuy mint with m | rb
    · simp [checkHoneypot, honeypotFailCondition, buyQuoteOut, hb]
    · by_cases hok : rb.ok = true
      · rcases ha : rb.body.outAmount with _ | b
        · simp [checkHoneypot, honeypotFailCondition, buyQuoteOut, hb, hok, ha]
        · by_cases hb0 : b = 0
          · simp [checkHoneypot, honeypotFailCondition, buyQuoteOut, hb, hok, ha, hb0]
          · have hbq : buyQuoteOut env mint = some b := by
              simp [buyQuoteOut, hb, hok, ha, hb0]
            rcases hs : env.honeypotSell mint b with m | rs
            · simp [checkHoneypot, honeypotFailCondition, sellQuoteOut, hbq,
                hb, hok, ha, hb0, hs]
            · by_cases hsok : rs.ok = true
              · rcases hsa : rs.body.outAmount with _ | s
                · simp [checkHoneypot, honeypotFailCondition, sellQuoteOut, hbq,
                    hb, hok, ha, hb0, hs, hsok, hsa]
                · by_cases hs0 : s = 0
                  · simp [checkHoneypot, honeypotFailCondition, sellQuoteOut, hbq,
                      hb, hok, ha, hb0, hs, hsok, hsa, hs0]
                  · have hsq : sellQuoteOut env mint = some s := by
                      simp [sellQuoteOut, hbq, hs, hsok, hsa, hs0]
                    by_cases himp :
                        (1000000 / b - s / b) / (1000000 / b) * 100 > 50
                    · simp [checkHoneypot, honeypotFailCondition, hbq, hsq,
                        hb, hok, ha, hb0, hs, hsok, hsa, hs0, himp]
                    · by_cases hrec : s / 1000000 / 1 * 100 < 50
                      · have hrec' : s / 1000000 * 100 < 50 := by
                          rwa [div_one] at hrec
                        simp [checkHoneypot, honeypotFailCondition, hbq, hsq,
                          hb, hok, ha, hb0, hs, hsok, hsa, hs0, himp, hrec']
                      · have hrec' : ¬ s / 1000000 * 100 < 50 := by
                          rwa [div_one] at hrec
                        by_cases hslip : rb.body.priceImpactPct.getD 0 > 20 ∨
                            rs.body.priceImpactPct.getD 0 > 20
                        · simp [checkHoneypot, honeypotFailCondition, hbq, hsq,
                            hb, hok, ha, hb0, hs, hsok, hsa, hs0, himp, hrec', hslip]
                        · simp [checkHoneypot, honeypotFailCondition, hbq, hsq,
                            hb, hok, ha, hb0, hs, hsok, hsa, hs0, himp, hrec', hslip]
              · simp [checkHoneypot, honeypotFailCondition, sellQuoteOut, hbq,
                  hb, hok, ha, hb0, hs, hsok]
      · simp [checkHoneypot, honeypotFailCondition, buyQuoteOut, hb, hok]
  · intro rb b rs hb hok ha hb0 hs hsok hsa
    simp [checkHoneypot, hb, hok, ha, hb0, hs, hsok, hsa]

/-- Environment identical to `envBase` except that the honeypot sell leg
quotes a zero output amount. -/
def envSellZero : Env :=
  { envBase with
      honeypotSell := fun _ _ =>
        .ok (jupOk { outAmount := some 0, priceImpactPct := some 0
                   , slippageBps := some 0 }) }

theorem C3_honeypot_fails_iff_witness :
    checkHoneypot envSellZero "M" =
      ⟨false, "Sell quote returned 0 USDT - honeypot confirmed"⟩ ∧
    honeypotFailCondition envSellZero "M" := by
  have h := (C3_honeypot_fails_iff envSellZero "M").2
    (jupOk quoteClean) 1000000
    (jupOk { outAmount := some 0, priceImpactPct := some 0, slippageBps := some 0 })
    rfl rfl rfl (by decide) rfl rfl rfl
  refine ⟨h, (C3_honeypot_fails_iff envSellZero "M").1.1 (by rw [h])⟩

/-! ### Execution Engine (sniper source, lines 434-710) -/

/-- Result of `checkUSDTBalance` (sniper source, lines 434-452). -/
structure BalanceCheck where
  hasBalance : Bool
  balance : ℚ
deriving DecidableEq

def checkUSDTBalance (env : Env) : BalanceCheck :=
  match env.usdtAccounts with
  | .error _ => ⟨false, 0⟩
  | .ok [] => ⟨false, 0⟩
  | .ok (amount :: _) =>
    let balance := amount / 1000000
    ⟨decide (balance ≥ SNIPE_AMOUNT_USDT), balance⟩

/-- Parsed result of `getJupiterQuote` (sniper source, lines 564-600). -/
structure JupQuote where
  quoteResponse : QuoteJson
  outAmount : Option ℚ
  priceImpact : ℚ
  slippage : ℚ
deriving DecidableEq

inductive QuoteOutcome where
  | failure (error : String)
  | success (quote : JupQuote)
deriving DecidableEq

def getJupiterQuote (env : Env) (tokenMint : String) (amountUsdt : ℚ) :
    QuoteOutcome :=
  let amountIn : ℤ := ⌊amountUsdt * 1000000⌋
  match env.snipeQuote tokenMint amountIn with
  | .error msg => .failure msg
  | .ok r =>
    if !r.ok then .failure ("Quote API error: " ++ toString r.status)
    else
      .success
        { quoteResponse := r.body
        , outAmount := r.body.outAmount
        , priceImpact := r.body.priceImpactPct.getD 0
        , slippage := r.body.slippageBps.getD 0 / 100 }

inductive BuildOutcome where
  | failure (error : String)
  | success (transaction : String)
deriving DecidableEq

/-- `buildJupiterSwap` (sniper source, lines 602-634). -/
def buildJupiterSwap (env : Env) (quoteResponse : QuoteJson) : BuildOutcome :=
  match env.swapBuild quoteResponse with
  | .error msg => .failure msg
  | .ok r =>
    if !r.ok then .failure ("Swap API error: " ++ toString r.status)
    else .success r.swapTransaction

/-- `executeSwap` (sniper source, lines 636-682): deserialization, signing,
submission and confirmation are collapsed into the externally reported
outcome; the caller accounts for the submission side effect. -/
def executeSwap (env : Env) : ExecOutcome :=
  env.swapExec

/-- Decimals fetched before bookkeeping (sniper source, lines 532-542),
defaulting to 9 when the account lookup fails or is unparsable. -/
def fetchDecimals (env : Env) (tokenMint : String) : ℤ :=
  match env.accountInfo tokenMint with
  | .ok (.parsed info) => info.decimals
  | _ => 9

/-- Entry of the persisted snipe log (`logSnipeToFile`) and of the console
snipe log (`logSuccessfulSnipe`); the token snapshot is flattened. -/
structure SnipeRecord where
  timestamp : String
  symbol : Option String
  name : Option String
  mint : String
  price : Option ℚ
  liquidity : Option ℚ
  marketCap : Option ℚ
  amountUsdt : ℚ
  tokensReceived : ℚ
  priceImpact : ℚ
  slippage : ℚ
  transaction : String
deriving DecidableEq

def mkSnipeRecord (env : Env) (t : Token) (q : JupQuote)
    (tokensReceived : ℚ) (transactionSignature : String) : SnipeRecord :=
  { timestamp := env.nowIso
  , symbol := t.symbol
  , name := t.name
  , mint := t.address
  , price := t.price
  , liquidity := t.liquidity
  , marketCap := t.mc
  , amountUsdt := SNIPE_AMOUNT_USDT
  , tokensReceived := tokensReceived
  , priceImpact := q.priceImpact
  , slippage := q.slippage
  , transaction := transactionSignature }

/-- Portfolio entry (`addTokenToPortfolio`, sniper source, lines 835-865). -/
structure PortfolioEntry where
  symbol : Option String
  name : Option String
  mint : String
  snipedAt : String
  amountUsdt : ℚ
  tokensReceived : ℚ
  priceAtSnipe : Option ℚ
  liquidityAtSnipe : Option ℚ
  marketCapAtSnipe : Option ℚ
  transactionSignature : String
  currentPrice : Option ℚ
  currentValue : ℚ
  profitLoss : ℚ
  profitLossPercent : ℚ
deriving DecidableEq

structure Portfolio where
  tokens : List PortfolioEntry
  totalInvested : ℚ
  totalValue : ℚ
  lastUpdated : String
deriving DecidableEq

/-- The portfolio entry pushed by `addTokenToPortfolio`.  The source computes
`tokensReceived * token.price` with the raw field; an absent price is `getD 0`
here (the execution path has already validated the price as truthy). -/
def mkPortfolioEntry (nowIso : String) (t : Token) (q : JupQuote)
    (transactionSignature : String) (tokensReceivedUI : Option ℚ) :
    PortfolioEntry :=
  let tokensReceived := tokensReceivedUI.getD (q.outAmount.getD 0)
  { symbol := t.symbol
  , name := t.name
  , mint := t.address
  , snipedAt := nowIso
  , amountUsdt := SNIPE_AMOUNT_USDT
  , tokensReceived := tokensReceived
  , priceAtSnipe := t.price
  , liquidityAtSnipe := t.liquidity
  , marketCapAtSnipe := t.mc
  , transactionSignature := transactionSignature
  , currentPrice := t.price
  , currentValue := tokensReceived * t.price.getD 0
  , profitLoss := 0
  , profitLossPercent := 0 }

/-- `addTokenToPortfolio` (sniper source, lines 835-865), parameterised by the
portfolio loaded from disk. -/
def addTokenToPortfolio (nowIso : String) (portfolio : Portfolio) (t : Token)
    (q : JupQuote) (transactionSignature : String)
    (tokensReceivedUI : Option ℚ) : Portfolio :=
  let entry := mkPortfolioEntry nowIso t q transactionSignature tokensReceivedUI
  { tokens := portfolio.tokens ++ [entry]
  , totalInvested := portfolio.totalInvested + SNIPE_AMOUNT_USDT
  , totalValue := portfolio.totalValue + entry.currentValue
  , lastUpdated := nowIso }

/-- Persistent and observable effects of the bot: the portfolio file, the
`snipes_log.json` array, the console snipe log of `logSuccessfulSnipe`, the
Telegram notifications sent, and counters of swap-build requests and of
sign-and-submit calls. -/
structure BotState where
  portfolio : Portfolio
  snipesFile : List SnipeRecord
  consoleSnipes : List SnipeRecord
  notifications : List String
  buildRequests : ℕ
  submissions : ℕ
deriving DecidableEq

/-- Telegram message of `formatSnipeNotification` (HTML layout elided). -/
def snipeNotification (t : Token) (transactionSignature : String) : String :=
  "SUCCESSFUL SNIPE " ++ t.address ++ " " ++ transactionSignature

inductive SnipeOutcome where
  | insufficientBalance
  | quoteFailed (error : String)
  | priceImpactTooHigh
  | slippageTooHigh
  | buildFailed (error : String)
  | dryRunLogged
  | swapFailed (error : String)
  | sniped (signature : String)
deriving DecidableEq

/-- `snipeToken` (sniper source, lines 454-562). -/
def snipeToken (env : Env) (dryRun : Bool) (st : BotState) (t : Token) :
    BotState × SnipeOutcome :=
  let balanceCheck := checkUSDTBalance env
  if !balanceCheck.hasBalance then (st, .insufficientBalance)
  else
    match getJupiterQuote env t.address SNIPE_AMOUNT_USDT with
    | .failure e => (st, .quoteFailed e)
    | .success quote =>
      if quote.priceImpact > 20 then (st, .priceImpactTooHigh)
      else if quote.slippage > 5 then (st, .slippageTooHigh)
      else
        let st1 := { st with buildRequests := st.buildRequests + 1 }
        match buildJupiterSwap env quote.quoteResponse with
        | .failure e => (st1, .buildFailed e)
        | .success _tx =>
          if dryRun then
            let record :=
              mkSnipeRecord env t quote (quote.outAmount.getD 0)
                "DRY_RUN_SIMULATION"
            ({ st1 with consoleSnipes := st1.consoleSnipes ++ [record] },
             .dryRunLogged)
          else
            let st2 := { st1 with submissions := st1.submissions + 1 }
            match executeSwap env with
            | .failure e => (st2, .swapFailed e)
            | .success signature =>
              let decimals := fetchDecimals env t.address
              let tokensReceivedUI :=
                quote.outAmount.getD 0 / (10 : ℚ) ^ decimals
              let portfolio2 :=
                addTokenToPortfolio env.nowIso st2.portfolio t quote signature
                  (some tokensReceivedUI)
              let fileRecord :=
                mkSnipeRecord env t quote tokensReceivedUI signature
              ({ st2 with
                  portfolio := portfolio2
                , snipesFile := st2.snipesFile ++ [fileRecord]
                , notifications :=
                    st2.notifications ++ [snipeNotification t signature] },
               .sniped signature)

/-- Per-token tail of the `fetchAndAnalyzeTokens` loop (sniper source, lines
798-805): safety gate, then snipe.  The boolean records whether a snipe was
attempted. -/
def analyzeNewToken (env : Env) (dryRun : Bool) (st : BotState) (t : Token) :
    BotState × Bool :=
  if checkTokenSafety env t then ((snipeToken env dryRun st t).1, true)
  else (st, false)

def portfolioEmpty : Portfolio :=
  { tokens := [], totalInvested := 0, totalValue := 0, lastUpdated := "init" }

def st0 : BotState :=
  { portfolio := portfolioEmpty, snipesFile := [], consoleSnipes := []
  , notifications := [], buildRequests := 0, submissions := 0 }

/-- C5: when the swap quote reports a price impact above 20% or a slippage
above 5%, `snipeToken` abandons the attempt leaving the whole bot state
unchanged: no build request, no submission, no snipe record, no portfolio
write and no notification. -/
theorem C5_quote_risk_thresholds_abort (env : Env) (dryRun : Bool)
    (st : BotState) (t : Token) (resp : JupResp)
    (hq : env.snipeQuote t.address ⌊SNIPE_AMOUNT_USDT * 1000000⌋ =
      Except.ok resp)
    (hok : resp.ok = true)
    (hrisk : resp.body.priceImpactPct.getD 0 > 20 ∨
      resp.body.slippageBps.getD 0 / 100 > 5) :
    (snipeToken env dryRun st t).1 = st ∧
    ((snipeToken env dryRun st t).2 = SnipeOutcome.insufficientBalance ∨
     (snipeToken env dryRun st t).2 = SnipeOutcome.priceImpactTooHigh ∨
     (snipeToken env dryRun st t).2 = SnipeOutcome.slippageTooHigh) := by
  have hquote : getJupiterQuote env t.address SNIPE_AMOUNT_USDT =
      QuoteOutcome.success
        { quoteResponse := resp.body
        , outAmount := resp.body.outAmount
        , priceImpact := resp.body.priceImpactPct.getD 0
        , slippage := resp.body.slippageBps.getD 0 / 100 } := by
    simp [getJupiterQuote, hq, hok]
  unfold snipeToken
  cases hbal : (checkUSDTBalance env).hasBalance
  · simp [hbal]
  · by_cases hpi : resp.body.priceImpactPct.getD 0 > 20
    · simp [hbal, hquote, hpi]
    · have hsl : resp.body.slippageBps.getD 0 / 100 > 5 := hrisk.resolve_left hpi
      simp [hbal, hquote, hpi, hsl]

/-- Environment whose snipe quote reports a 25% price impact. -/
def envHighImpact : Env :=
  { envBase with
      snipeQuote := fun _ _ =>
        .ok (jupOk { outAmount := some 1000000, priceImpactPct := some 25
                   , slippageBps := some 0 }) }

theorem C5_quote_risk_thresholds_abort_witness :
    (snipeToken envHighImpact false st0 (blankToken "M")).1 = st0 ∧
    ((snipeToken envHighImpact false st0 (blankToken "M")).2 =
        SnipeOutcome.insufficientBalance ∨
     (snipeToken envHighImpact false st0 (blankToken "M")).2 =
        SnipeOutcome.priceImpactTooHigh ∨
     (snipeToken envHighImpact false st0 (blankToken "M")).2 =
        SnipeOutcome.slippageTooHigh) :=
  C5_quote_risk_thresholds_abort envHighImpact false st0 (blankToken "M")
    (jupOk { outAmount := some 1000000, priceImpactPct := some 25
           , slippageBps := some 0 })
    rfl rfl (Or.inl (by decide))

/-- C6 (counterexample): in dry-run mode a snipe attempt that reaches the
execution step terminates as a logged dry run, yet nothing is appended to the
persisted snipe log (`logSuccessfulSnipe` only prints; its file write is
commented out in the source), and no submission occurs. -/
theorem C6_dry_run_persisted_append_counterexample :
    (snipeToken envBase true st0 (blankToken "M")).2 =
      SnipeOutcome.dryRunLogged ∧
    (snipeToken envBase true st0 (blankToken "M")).1.snipesFile = [] ∧
    (snipeToken envBase true st0 (blankToken "M")).1.submissions = 0 := by
  have hbal : (checkUSDTBalance envBase).hasBalance = true := by
    simp only [checkUSDTBalance, envBase, SNIPE_AMOUNT_USDT,
      decide_eq_true_eq, ge_iff_le]
    norm_num
  simp only [snipeToken, hbal]
  norm_num [getJupiterQuote, envBase, jupOk, quoteClean, buildJupiterSwap, st0]

/-- C6 (amended): in dry-run mode a snipe attempt that reaches the execution
step performs no sign-and-submit call and leaves the portfolio, the persisted
snipe log and the notifications unchanged, while a SnipeRecord whose
transaction signature is "DRY_RUN_SIMULATION" is logged to the console. -/
theorem C6_dry_run_console_record (env : Env) (st : BotState) (t : Token)
    (resp : JupResp) (bresp : BuildResp)
    (hbal : (checkUSDTBalance env).hasBalance = true)
    (hq : env.snipeQuote t.address ⌊SNIPE_AMOUNT_USDT * 1000000⌋ =
      Except.ok resp)
    (hok : resp.ok = true)
    (hpi : ¬ resp.body.priceImpactPct.getD 0 > 20)
    (hsl : ¬ resp.body.slippageBps.getD 0 / 100 > 5)
    (hb : env.swapBuild resp.body = Except.ok bresp)
    (hbok : bresp.ok = true) :
    (snipeToken env true st t).2 = SnipeOutcome.dryRunLogged ∧
    (snipeToken env true st t).1.portfolio = st.portfolio ∧
    (snipeToken env true st t).1.snipesFile = st.snipesFile ∧
    (snipeToken env true st t).1.notifications = st.notifications ∧
    (snipeToken env true st t).1.submissions = st.submissions ∧
    (∃ record, (snipeToken env true st t).1.consoleSnipes =
        st.consoleSnipes ++ [record] ∧
      record.transaction = "DRY_RUN_SIMULATION") := by
  have hquote : getJupiterQuote env t.address SNIPE_AMOUNT_USDT =
      QuoteOutcome.success
        { quoteResponse := resp.body
        , outAmount := resp.body.outAmount
        , priceImpact := resp.body.priceImpactPct.getD 0
        , slippage := resp.body.slippageBps.getD 0 / 100 } := by
    simp [getJupiterQuote, hq, hok]
  have hbuild : buildJupiterSwap env resp.body =
      BuildOutcome.success bresp.swapTransaction := by
    simp [buildJupiterSwap, hb, hbok]
  have hres : snipeToken env true st t =
      ({ st with
          buildRequests := st.buildRequests + 1
        , consoleSnipes := st.consoleSnipes ++
            [mkSnipeRecord env t
              { quoteResponse := resp.body
              , outAmount := resp.body.outAmount
              , priceImpact := resp.body.priceImpactPct.getD 0
              , slippage := resp.body.slippageBps.getD 0 / 100 }
              (resp.body.outAmount.getD 0) "DRY_RUN_SIMULATION"] },
       SnipeOutcome.dryRunLogged) := by
    simp [snipeToken, hbal, hquote, hbuild, hpi, hsl]
  rw [hres]
  exact ⟨rfl, rfl, rfl, rfl, rfl, ⟨_, rfl, rfl⟩⟩

theorem C6_dry_run_console_record_witness :
    (snipeToken envBase true st0 (blankToken "M")).2 =
      SnipeOutcome.dryRunLogged ∧
    (snipeToken envBase true st0 (blankToken "M")).1.portfolio =
      st0.portfolio ∧
    (snipeToken envBase true st0 (blankToken "M")).1.snipesFile =
      st0.snipesFile ∧
    (snipeToken envBase true st0 (blankToken "M")).1.notifications =
      st0.notifications ∧
    (snipeToken envBase true st0 (blankToken "M")).1.submissions =
      st0.submissions ∧
    (∃ record, (snipeToken envBase true st0 (blankToken "M")).1.consoleSnipes =
        st0.consoleSnipes ++ [record] ∧
      record.transaction = "DRY_RUN_SIMULATION") :=
  C6_dry_run_console_record envBase st0 (blankToken "M") (jupOk quoteClean)
    { ok := true, status := 200, swapTransaction := "tx64" }
    (by simp only [checkUSDTBalance, envBase, SNIPE_AMOUNT_USDT,
          decide_eq_true_eq, ge_iff_le]
        norm_num)
    rfl rfl (by decide) (by norm_num [jupOk, quoteClean]) rfl rfl

/-- C10: `addTokenToPortfolio` appends exactly one entry, leaves all previous
entries unchanged, increases `totalInvested` by exactly `SNIPE_AMOUNT_USDT`,
and increases `totalValue` by exactly the new entry's `currentValue`, which is
the received token amount times the snipe-time price. -/
theorem C10_portfolio_single_append (nowIso : String) (portfolio : Portfolio)
    (t : Token) (q : JupQuote) (transactionSignature : String)
    (tokensReceivedUI : Option ℚ) (p : ℚ) (hp : t.price = some p) :
    (addTokenToPortfolio nowIso portfolio t q transactionSignature
        tokensReceivedUI).tokens =
      portfolio.tokens ++
        [mkPortfolioEntry nowIso t q transactionSignature tokensReceivedUI] ∧
    (addTokenToPortfolio nowIso portfolio t q transactionSignature
        tokensReceivedUI).totalInvested =
      portfolio.totalInvested + SNIPE_AMOUNT_USDT ∧
    (addTokenToPortfolio nowIso portfolio t q transactionSignature
        tokensReceivedUI).totalValue =
      portfolio.totalValue +
        (mkPortfolioEntry nowIso t q transactionSignature
          tokensReceivedUI).currentValue ∧
    (mkPortfolioEntry nowIso t q transactionSignature
        tokensReceivedUI).currentValue =
      tokensReceivedUI.getD (q.outAmount.getD 0) * p := by
  refine ⟨rfl, rfl, rfl, ?_⟩
  simp [mkPortfolioEntry, hp]

/-- Quote used to instantiate the portfolio claim. -/
def jqClean : JupQuote :=
  { quoteResponse := quoteClean, outAmount := some 1000000
  , priceImpact := 0, slippage := 0 }

theorem C10_portfolio_single_append_witness :
    (addTokenToPortfolio "ts" portfolioEmpty healthyToken jqClean "sig"
        (some 50)).tokens =
      portfolioEmpty.tokens ++
        [mkPortfolioEntry "ts" healthyToken jqClean "sig" (some 50)] ∧
    (addTokenToPortfolio "ts" portfolioEmpty healthyToken jqClean "sig"
        (some 50)).totalInvested =
      portfolioEmpty.totalInvested + SNIPE_AMOUNT_USDT ∧
    (addTokenToPortfolio "ts" portfolioEmpty healthyToken jqClean "sig"
        (some 50)).totalValue =
      portfolioEmpty.totalValue +
        (mkPortfolioEntry "ts" healthyToken jqClean "sig" (some 50)).currentValue ∧
    (mkPortfolioEntry "ts" healthyToken jqClean "sig" (some 50)).currentValue =
      (some (50 : ℚ)).getD (jqClean.outAmount.getD 0) * (1 / 100) :=
  C10_portfolio_single_append "ts" portfolioEmpty healthyToken jqClean "sig"
    (some 50) (1 / 100) rfl

/-- C7: a thrown transport error makes the affected safety check fail
(fail-closed): an account-info error fails the mint-authority, freeze-authority
and supply checks, a quote transport error fails the honeypot check; the
overall safety result is true only if all five checks pass; and a sell-quote
HTTP 400 makes the honeypot check fail citing the sell-quote failure, the
overall safety result false, and no snipe is attempted for the candidate. -/
theorem C7_transport_errors_fail_closed (env : Env) (t : Token)
    (dryRun : Bool) (st : BotState) :
    (∀ msg, env.accountInfo t.address = Except.error msg →
        (checkMintAuthority env t.address).passed = false ∧
        (checkFreezeAuthority env t.address).passed = false ∧
        (checkTokenSupply env t.address).passed = false) ∧
    (∀ msg, env.honeypotBuy t.address = Except.error msg →
        (checkHoneypot env t.address).passed = false) ∧
    (∀ rb b msg, env.honeypotBuy t.address = Except.ok rb → rb.ok = true →
        rb.body.outAmount = some b → b ≠ 0 →
        env.honeypotSell t.address b = Except.error msg →
        (checkHoneypot env t.address).passed = false) ∧
    (checkTokenSafety env t = true ↔
        (checkMintAuthority env t.address).passed = true ∧
        (checkFreezeAuthority env t.address).passed = true ∧
        (checkTokenSupply env t.address).passed = true ∧
        (checkHoneypot env t.address).passed = true ∧
        (checkHolderDistribution t.address).passed = true) ∧
    (∀ rb b rs, env.honeypotBuy t.address = Except.ok rb → rb.ok = true →
        rb.body.outAmount = some b → b ≠ 0 →
        env.honeypotSell t.address b = Except.ok rs → rs.ok = false →
        rs.status = 400 →
        checkHoneypot env t.address =
          ⟨false, "Sell quote failed: 400 - Classic honeypot (can buy but can\x27t sell)"⟩ ∧
        checkTokenSafety env t = false ∧
        analyzeNewToken env dryRun st t = (st, false)) := by
  have hiff : checkTokenSafety env t = true ↔
      (checkMintAuthority env t.address).passed = true ∧
      (checkFreezeAuthority env t.address).passed = true ∧
      (checkTokenSupply env t.address).passed = true ∧
      (checkHoneypot env t.address).passed = true ∧
      (checkHolderDistribution t.address).passed = true := by
    unfold checkTokenSafety checkTokenSafetyTrace
    cases h1 : (checkMintAuthority env t.address).passed <;>
    cases h2 : (checkFreezeAuthority env t.address).passed <;>
    cases h3 : (checkTokenSupply env t.address).passed <;>
    cases h4 : (checkHoneypot env t.address).passed <;>
      simp [checkHolderDistribution, h1, h2, h3, h4]
  refine ⟨?_, ?_, ?_, hiff, ?_⟩
  · intro msg h
    exact ⟨by simp [checkMintAuthority, h], by simp [checkFreezeAuthority, h],
      by simp [checkTokenSupply, h]⟩
  · intro msg h
    simp [checkHoneypot, h]
  · intro rb b msg hb hok ha hb0 hs
    simp [checkHoneypot, hb, hok, ha, hb0, hs]
  · intro rb b rs hb hok ha hb0 hs hsok hstatus
    have hhp : checkHoneypot env t.address =
        ⟨false, "Sell quote failed: 400 - Classic honeypot (can buy but can\x27t sell)"⟩ := by
      have : checkHoneypot env t.address =
          ⟨false, "Sell quote failed: " ++ toString rs.status
            ++ " - Classic honeypot (can buy but can\x27t sell)"⟩ := by
        simp [checkHoneypot, hb, hok, ha, hb0, hs, hsok]
      rw [this, hstatus]
      decide
    have hsafety : checkTokenSafety env t = false := by
      cases hst : checkTokenSafety env t with
      | false => rfl
      | true =>
        have := (hiff.1 hst).2.2.2.1
        rw [hhp] at this
        exact absurd this (by simp)
    exact ⟨hhp, hsafety, by simp [analyzeNewToken, hsafety]⟩

/-- Environment whose account lookups throw a transport error. -/
def envAcctErr : Env :=
  { envBase with accountInfo := fun _ => .error "ECONNRESET" }

/-- Environment whose honeypot buy quote throws a transport error. -/
def envBuyErr : Env :=
  { envBase with honeypotBuy := fun _ => .error "ETIMEDOUT" }

/-- Environment whose honeypot sell quote throws a transport error. -/
def envSellErr : Env :=
  { envBase with honeypotSell := fun _ _ => .error "ETIMEDOUT" }

/-- Environment whose honeypot sell quote comes back HTTP 400. -/
def envSell400 : Env :=
  { envBase with
      honeypotSell := fun _ _ =>
        .ok { ok := false, status := 400, body := quoteClean } }

theorem C7_transport_errors_fail_closed_witness :
    (checkMintAuthority envAcctErr "M").passed = false ∧
    (checkHoneypot envBuyErr "M").passed = false ∧
    (checkHoneypot envSellErr "M").passed = false ∧
    checkHoneypot envSell400 "M" =
      ⟨false, "Sell quote failed: 400 - Classic honeypot (can buy but can\x27t sell)"⟩ ∧
    checkTokenSafety envSell400 (blankToken "M") = false ∧
    analyzeNewToken envSell400 false st0 (blankToken "M") = (st0, false) := by
  have h400 := (C7_transport_errors_fail_closed envSell400 (blankToken "M")
      false st0).2.2.2.2 (jupOk quoteClean) 1000000
      { ok := false, status := 400, body := quoteClean }
      rfl rfl rfl (by decide) rfl rfl rfl
  exact ⟨((C7_transport_errors_fail_closed envAcctErr (blankToken "M")
        false st0).1 "ECONNRESET" rfl).1,
    (C7_transport_errors_fail_closed envBuyErr (blankToken "M")
        false st0).2.1 "ETIMEDOUT" rfl,
    (C7_transport_errors_fail_closed envSellErr (blankToken "M")
        false st0).2.2.1 (jupOk quoteClean) 1000000 "ETIMEDOUT"
        rfl rfl rfl (by decide) rfl,
    h400.1, h400.2.1, h400.2.2⟩

/-! ### Pool Monitor (realtime_pool_monitor.js) -/

/-- A minimal pool candidate as produced by the monitor. -/
structure PoolInfo where
  address : String
  poolId : Option String
  baseMint : String
  quoteMint : String
  signature : Option String
  detectionMethod : Option String
deriving DecidableEq

/-- `extractPoolInfoFromTransaction` (monitor source, lines 120-156):
fixed-position account references 8 (base mint), 9 (quote mint), 4 (pool). -/
def extractPoolInfoFromTransaction (env : Env) (signature : String) :
    Option PoolInfo :=
  match env.parsedTx signature with
  | .error _ => none
  | .ok none => none
  | .ok (some tx) =>
    match tx.accountKeys.get? 8, tx.accountKeys.get? 9 with
    | some baseMint, some quoteMint =>
      if baseMint = "" ∨ quoteMint = "" then none
      else
        some { address := baseMint
             , poolId := tx.accountKeys.get? 4
             , baseMint := baseMint
             , quoteMint := quoteMint
             , signature := some signature
             , detectionMethod := some "transaction_log" }
    | _, _ => none

/-- One `onLogs` notification. -/
structure LogsEvent where
  signature : String
  logs : List String
deriving DecidableEq

/-- One callback activation of `setupLogMonitoring` (monitor source, lines
35-61): drop if the signature was seen, otherwise record it and, on an
initialize2 marker, resolve the pool info (`none` when the lookup fails and
the candidate is dropped). -/
def logStep (env : Env) (seen : List String) (ev : LogsEvent) :
    List String × Option PoolInfo :=
  if decide (ev.signature ∈ seen) then (seen, none)
  else
    (ev.signature :: seen,
     if ev.logs.any (fun l => strIncludes l "initialize2") then
       extractPoolInfoFromTransaction env ev.signature
     else none)

/-- The stream of candidates delivered to the `onNewPool` callback over a
sequence of log events, threading the `seenTransactions` set. -/
def runLogMonitor (env : Env) : List String → List LogsEvent →
    List (String × PoolInfo)
  | _, [] => []
  | seen, ev :: rest =>
    let step := logStep env seen ev
    match step.2 with
    | some p => (ev.signature, p) :: runLogMonitor env step.1 rest
    | none => runLogMonitor env step.1 rest

theorem logStep_fst_of_seen (env : Env) (seen : List String) (ev : LogsEvent)
    (h : ev.signature ∈ seen) : logStep env seen ev = (seen, none) := by
  simp [logStep, h]

theorem logStep_fst_of_not_seen (env : Env) (seen : List String)
    (ev : LogsEvent) (h : ¬ ev.signature ∈ seen) :
    (logStep env seen ev).1 = ev.signature :: seen := by
  simp [logStep, h]

theorem mem_logStep_fst (env : Env) (seen : List String) (ev : LogsEvent)
    (s : String) (h : s ∈ seen) : s ∈ (logStep env seen ev).1 := by
  by_cases hc : ev.signature ∈ seen
  · rw [logStep_fst_of_seen env seen ev hc]
    exact h
  · rw [logStep_fst_of_not_seen env seen ev hc]
    exact List.mem_cons_of_mem _ h

theorem runLogMonitor_countP_zero (env : Env) (s : String) :
    ∀ events seen, s ∈ seen →
      (runLogMonitor env seen events).countP (fun x => decide (x.1 = s)) = 0 := by
  intro events
  induction events with
  | nil => intro seen _; simp [runLogMonitor]
  | cons ev rest ih =>
    intro seen hs
    have hpres : s ∈ (logStep env seen ev).1 := mem_logStep_fst env seen ev s hs
    by_cases hc : ev.signature ∈ seen
    · have hstep : logStep env seen ev = (seen, none) :=
        logStep_fst_of_seen env seen ev hc
      simp only [runLogMonitor, hstep]
      exact ih seen hs
    · have hne : ¬ (ev.signature = s) := fun h => hc (h ▸ hs)
      cases hout : (logStep env seen ev).2 with
      | none =>
        simp only [runLogMonitor, hout]
        exact ih _ hpres
      | some p =>
        simp only [runLogMonitor, hout, List.countP_cons]
        have hdec : (decide ((ev.signature, p).1 = s)) = false := by
          simpa using hne
        rw [hdec]
        simp only [Bool.false_eq_true, if_false, add_zero]
        exact ih _ hpres

theorem runLogMonitor_countP_le_one (env : Env) (s : String) :
    ∀ events seen,
      (runLogMonitor env seen events).countP (fun x => decide (x.1 = s)) ≤ 1 := by
  intro events
  induction events with
  | nil => intro seen; simp [runLogMonitor]
  | cons ev rest ih =>
    intro seen
    by_cases hc : ev.signature ∈ seen
    · have hstep : logStep env seen ev = (seen, none) :=
        logStep_fst_of_seen env seen ev hc
      simp only [runLogMonitor, hstep]
      exact ih seen
    · cases hout : (logStep env seen ev).2 with
      | none =>
        simp only [runLogMonitor, hout]
        exact ih _
      | some p =>
        simp only [runLogMonitor, hout, List.countP_cons]
        by_cases hes : ev.signature = s
        · have hmem : s ∈ (logStep env seen ev).1 := by
            rw [logStep_fst_of_not_seen env seen ev hc, ← hes]
            exact List.mem_cons_self _ _
          rw [runLogMonitor_countP_zero env s rest _ hmem]
          simp [hes]
        · rw [if_neg (by simpa using hes)]
          simpa using ih _

/-- C4: the log-based Pool Monitor invokes the new-pool callback at most once
per transaction signature in a run, and once a signature is in the seen set a
later event with that signature is dropped with no further processing. -/
theorem C4_log_monitor_dedup (env : Env) (events : List LogsEvent)
    (s : String) :
    (runLogMonitor env [] events).countP (fun x => decide (x.1 = s)) ≤ 1 ∧
    (∀ seen ev, ev.signature ∈ seen → logStep env seen ev = (seen, none)) :=
  ⟨runLogMonitor_countP_le_one env s events [],
   fun seen ev h => logStep_fst_of_seen env seen ev h⟩

/-- Two log events carrying the same signature, one with the pool marker. -/
def logEventsSameSig : List LogsEvent :=
  [ { signature := "SIG1", logs := ["Program log: initialize2"] }
  , { signature := "SIG1", logs := ["Program log: initialize2"] } ]

/-- Environment whose transaction lookup resolves a full account list. -/
def envTxOk : Env :=
  { envBase with
      parsedTx := fun _ =>
        .ok (some { accountKeys :=
          ["k0", "k1", "k2", "k3", "POOL", "k5", "k6", "k7", "BASE", "QUOTE"] }) }

theorem C4_log_monitor_dedup_witness :
    (runLogMonitor envTxOk [] logEventsSameSig).countP
        (fun x => decide (x.1 = "SIG1")) ≤ 1 ∧
    logStep envTxOk ["SIG1"]
        { signature := "SIG1", logs := ["Program log: initialize2"] } =
      (["SIG1"], none) :=
  ⟨(C4_log_monitor_dedup envTxOk logEventsSameSig "SIG1").1,
   (C4_log_monitor_dedup envTxOk logEventsSameSig "SIG1").2 ["SIG1"]
     { signature := "SIG1", logs := ["Program log: initialize2"] }
     (by decide)⟩

/-! ### C8: account-change detection emits only pools opened after start -/

/-- One `onProgramAccountChange` notification: account id plus raw data. -/
structure AccountChangeEvent where
  accountId : String
  data : List ℕ
deriving DecidableEq

/-- One callback activation of `setupAccountChangeMonitoring` (monitor source,
lines 63-118): dedup by pool id, decode the liquidity-state layout (errors
caught and dropped), and emit only when the decoded `poolOpenTime` is after
the monitor's start timestamp. -/
def accountStep (env : Env) (runTimestamp : ℤ) (seenPools : List String)
    (ev : AccountChangeEvent) : List String × Option PoolInfo :=
  if decide (ev.accountId ∈ seenPools) then (seenPools, none)
  else
    (ev.accountId :: seenPools,
     match env.decodeLiquidityState ev.data with
     | .error _ => none
     | .ok poolState =>
       if poolState.poolOpenTime > runTimestamp then
         some { address := poolState.baseMint
              , poolId := some ev.accountId
              , baseMint := poolState.baseMint
              , quoteMint := poolState.quoteMint
              , signature := none
              , detectionMethod := some "account_change" }
       else none)

/-- Candidates delivered by the account-change monitor over an event list. -/
def runAccountMonitor (env : Env) (runTimestamp : ℤ) :
    List String → List AccountChangeEvent → List PoolInfo
  | _, [] => []
  | seen, ev :: rest =>
    let step := accountStep env runTimestamp seen ev
    match step.2 with
    | some p => p :: runAccountMonitor env runTimestamp step.1 rest
    | none => runAccountMonitor env runTimestamp step.1 rest

/-- C8: an account-change event whose decoded open time is not later than the
monitor's start time delivers no candidate, and a whole event sequence of such
pools delivers none at all. -/
theorem C8_account_change_open_time_gate (env : Env) (runTimestamp : ℤ) :
    (∀ seen ev poolState,
        env.decodeLiquidityState ev.data = Except.ok poolState →
        poolState.poolOpenTime ≤ runTimestamp →
        (accountStep env runTimestamp seen ev).2 = none) ∧
    (∀ events seen,
        (∀ ev, ev ∈ events → ∀ poolState,
          env.decodeLiquidityState ev.data = Except.ok poolState →
          poolState.poolOpenTime ≤ runTimestamp) →
        runAccountMonitor env runTimestamp seen events = []) := by
  have hstep : ∀ seen ev poolState,
      env.decodeLiquidityState ev.data = Except.ok poolState →
      poolState.poolOpenTime ≤ runTimestamp →
      (accountStep env runTimestamp seen ev).2 = none := by
    intro seen ev poolState hdec hle
    by_cases hc : ev.accountId ∈ seen
    · simp [accountStep, hc]
    · simp [accountStep, hc, hdec, not_lt.2 hle]
  refine ⟨hstep, ?_⟩
  intro events
  induction events with
  | nil => intro seen _; simp [runAccountMonitor]
  | cons ev rest ih =>
    intro seen hall
    cases hout : (accountStep env runTimestamp seen ev).2 with
    | none =>
      simp only [runAccountMonitor, hout]
      exact ih _ fun e he ps hdec =>
        hall e (List.mem_cons_of_mem _ he) ps hdec
    | some p =>
      by_cases hc : ev.accountId ∈ seen
      · rw [show (accountStep env runTimestamp seen ev).2 = none from
          by simp [accountStep, hc]] at hout
        exact absurd hout (by simp)
      · rcases hdec : env.decodeLiquidityState ev.data with msg | poolState
        · rw [show (accountStep env runTimestamp seen ev).2 = none from
            by simp [accountStep, hc, hdec]] at hout
          exact absurd hout (by simp)
        · have hle := hall ev (List.mem_cons_self _ _) poolState hdec
          rw [show (accountStep env runTimestamp seen ev).2 = none from
            by simp [accountStep, hc, hdec, not_lt.2 hle]] at hout
          exact absurd hout (by simp)

/-- Environment whose pool decode reports an open time of 5. -/
def envDecodeOld : Env :=
  { envBase with
      decodeLiquidityState := fun _ =>
        .ok { baseMint := "BASE", quoteMint := "QUOTE", poolOpenTime := 5 } }

theorem C8_account_change_open_time_gate_witness :
    (accountStep envDecodeOld 10 [] { accountId := "POOL", data := [0] }).2 =
      none ∧
    runAccountMonitor envDecodeOld 10 []
      [{ accountId := "POOL", data := [0] }] = [] :=
  ⟨(C8_account_change_open_time_gate envDecodeOld 10).1 []
      { accountId := "POOL", data := [0] }
      { baseMint := "BASE", quoteMint := "QUOTE", poolOpenTime := 5 }
      rfl (by decide),
   (C8_account_change_open_time_gate envDecodeOld 10).2
      [{ accountId := "POOL", data := [0] }] []
      (fun ev _ poolState hdec => by
        simp only [envDecodeOld] at hdec
        cases hdec
        decide)⟩

/-! ### C9: the real-time path enhances candidates with zero market data -/

def SOL_MINT : String := "So11111111111111111111111111111111111111112"

/-- JavaScript `v || dflt` on a string field. -/
def jsOrString (v : Option String) (dflt : String) : String :=
  match v with
  | none => dflt
  | some s => if s = "" then dflt else s

/-- `passesRealTimeFilters` (sniper source, lines 997-1019). -/
def passesRealTimeFilters (p : PoolInfo) : Bool :=
  if decide (p.address = "") || decide (p.baseMint = "")
      || decide (p.quoteMint = "") then false
  else if decide (p.quoteMint ≠ SOL_MINT) then false
  else if EXCLUDED_TOKENS.contains p.address then false
  else true

/-- `enhanceRealTimePoolInfo` (sniper source, lines 1021-1051): builds a
Birdeye-shaped token object with hard-coded zero price, market cap and
liquidity (the catch branch is unreachable: the body is pure construction). -/
def enhanceRealTimePoolInfo (nowMs : ℤ) (p : PoolInfo) : Token :=
  { address := p.address
  , symbol := some "UNKNOWN"
  , name := some "Unknown Token"
  , price := some 0
  , mc := some 0
  , liquidity := some 0
  , v24hUSD := none
  , v24hChangePercent := none
  , lastTradeUnixTime := ((⌊(nowMs : ℚ) / 1000⌋ : ℤ) : ℚ)
  , volume24h := some 0
  , poolId := p.poolId
  , baseMint := some p.baseMint
  , quoteMint := some p.quoteMint
  , signature := p.signature
  , detectionMethod := some (jsOrString p.detectionMethod "realtime") }

/-- How far `handleRealTimePool` progressed on a candidate. -/
inductive HandleOutcome where
  | filteredRealtime
  | filteredSnipe
  | safetyRejected
  | snipeAttempted (outcome : SnipeOutcome)
deriving DecidableEq

/-- `handleRealTimePool` (sniper source, lines 1053-1096). -/
def handleRealTimePool (env : Env) (dryRun : Bool) (st : BotState)
    (p : PoolInfo) : BotState × HandleOutcome :=
  if !passesRealTimeFilters p then (st, .filteredRealtime)
  else
    let enhanced := enhanceRealTimePoolInfo env.nowMs p
    if !passesSnipeFilters (env.nowMs : ℚ) enhanced then (st, .filteredSnipe)
    else if !checkTokenSafety env enhanced then (st, .safetyRejected)
    else
      let r := snipeToken env dryRun st enhanced
      (r.1, .snipeAttempted r.2)

/-- C9: every real-time candidate is enhanced with liquidity, market cap and
price all zero, therefore fails `passesSnipeFilters` (liquidity 0 is falsy and
below the 3000 floor), so `handleRealTimePool` never reaches the safety
checker or the snipe step and leaves the bot state unchanged. -/
theorem C9_realtime_path_never_snipes (env : Env) (dryRun : Bool)
    (st : BotState) (p : PoolInfo) (nowMs : ℤ) (nowQ : ℚ) :
    (enhanceRealTimePoolInfo nowMs p).liquidity = some 0 ∧
    (enhanceRealTimePoolInfo nowMs p).mc = some 0 ∧
    (enhanceRealTimePoolInfo nowMs p).price = some 0 ∧
    passesSnipeFilters nowQ (enhanceRealTimePoolInfo nowMs p) = false ∧
    ((handleRealTimePool env dryRun st p).2 = HandleOutcome.filteredRealtime ∨
     (handleRealTimePool env dryRun st p).2 = HandleOutcome.filteredSnipe) ∧
    (handleRealTimePool env dryRun st p).1 = st := by
  have hliq : ∀ m : ℤ, filterLowLiquidity (enhanceRealTimePoolInfo m p) = true := by
    intro m
    simp [filterLowLiquidity, enhanceRealTimePoolInfo, truthyNum]
  have hpass : ∀ q : ℚ, ∀ m : ℤ,
      passesSnipeFilters q (enhanceRealTimePoolInfo m p) = false := by
    intro q m
    unfold passesSnipeFilters
    rw [hliq m]
    simp
  refine ⟨rfl, rfl, rfl, hpass nowQ nowMs, ?_, ?_⟩
  · unfold handleRealTimePool
    by_cases hrt : passesRealTimeFilters p
    · simp [hrt, hpass]
    · simp [hrt]
  · unfold handleRealTimePool
    by_cases hrt : passesRealTimeFilters p
    · simp [hrt, hpass]
    · simp [hrt]

/-- A well-formed real-time SOL-pair candidate. -/
def poolInfo0 : PoolInfo :=
  { address := "BASE", poolId := some "POOL", baseMint := "BASE"
  , quoteMint := SOL_MINT, signature := some "SIG1"
  , detectionMethod := some "transaction_log" }

theorem C9_realtime_path_never_snipes_witness :
    passesSnipeFilters 0 (enhanceRealTimePoolInfo 0 poolInfo0) = false ∧
    ((handleRealTimePool envBase false st0 poolInfo0).2 =
        HandleOutcome.filteredRealtime ∨
     (handleRealTimePool envBase false st0 poolInfo0).2 =
        HandleOutcome.filteredSnipe) ∧
    (handleRealTimePool envBase false st0 poolInfo0).1 = st0 :=
  ⟨(C9_realtime_path_never_snipes envBase false st0 poolInfo0 0 0).2.2.2.1,
   (C9_realtime_path_never_snipes envBase false st0 poolInfo0 0 0).2.2.2.2.1,
   (C9_realtime_path_never_snipes envBase false st0 poolInfo0 0 0).2.2.2.2.2⟩

end Snipey
